import Mathlib

/-!
Shallow embedding of the pglite-typeorm driver adapter
(source file src/pglite-driver.ts) and proofs about its behavior.

The adapter wraps an embedded SQL engine behind the conventional
pool-client contract connect / query / end.  We embed the JavaScript
values, the engine result objects, the parsed-statement summaries and
the three public methods as pure Lean functions.  Outcomes that in
JavaScript arrive through the engine, the SQL parser or the promise
machinery (creation success or failure, query or exec results, parse
results, close results) are passed in explicitly as Except values, and
each method returns a record describing its promise outcome, the
callback invocations it performed and the collaborator calls it made.
-/

set_option autoImplicit false

namespace PgliteDriver

/-- JavaScript values as they reach the boolean serializer and query
parameters.  Strict equality between distinct constructors is false,
matching the strict comparisons in the source. -/
inductive JSVal where
  | str (s : String)
  | bool (b : Bool)
  | num (n : Int)
  | null
  | undefined
  | obj (tag : Nat)
deriving DecidableEq, Repr

/-- The boolean serializer registered under the boolean type id, from
connect in src/pglite-driver.ts: an ordered chain of strict-equality
tests, first match wins, everything else passed through. -/
def boolSerializer (val : JSVal) : JSVal :=
  if val = .str "true" then .str "TRUE"
  else if val = .bool true then .str "TRUE"
  else if val = .str "false" then .str "FALSE"
  else if val = .bool false then .str "FALSE"
  else if val = .num 1 then .str "TRUE"
  else if val = .num 0 then .str "FALSE"
  else val

/-- Field descriptor of a result column, from the FieldDef type in the
source. -/
structure FieldDef where
  name : String
  dataTypeID : Nat
deriving DecidableEq, Repr

/-- A result row: a JavaScript object mapping column names to values. -/
abbrev Row := List (String × JSVal)

/-- A query-result-shaped JavaScript object.  Each field models a
property that may be absent or undefined (outer none).  The raw engine
result carries rows, fields and possibly affectedRows; the normalized
literal built by query carries rows, fields, rowCount and command.
rowCount distinguishes null (some none) from a number (some (some n))
from absent (none), as the source does. -/
structure ResultLike where
  rows : Option (List Row) := none
  fields : Option (List FieldDef) := none
  affectedRows : Option Nat := none
  rowCount : Option (Option Nat) := none
  command : Option String := none
deriving DecidableEq, Repr

/-- Errors flowing through the adapter: locally raised Error objects,
engine errors and parser errors, kept distinct and compared by
identity-like tags. -/
inductive Err where
  | jsError (msg : String)
  | engine (tag : Nat)
  | parse (tag : Nat)
deriving DecidableEq, Repr

/-- The error thrown by query when no connection is established. -/
def notInitializedError : Err :=
  .jsError "expected connection to be initialized, did you call DataSource.initialize()?"

/-- Syntactic node kind of one top-level parsed statement, as exposed
by the parser collaborator: the stmt object carries exactly one of the
UpdateStmt / DeleteStmt / InsertStmt / SelectStmt keys, or some other
statement key. -/
inductive StmtKind where
  | update
  | delete
  | insert
  | select
  | other
deriving DecidableEq, Repr

/-- The parser collaborator output: a list of top-level statements. -/
structure ParsedQuery where
  stmts : List StmtKind
deriving DecidableEq, Repr

/-- Command verb inference on the single-statement path, from the
if-chain over parsedSqlQuery.stmts 0 in query. -/
def inferCommand (parsed : ParsedQuery) : Option String :=
  match parsed.stmts.head? with
  | some .update => some "UPDATE"
  | some .delete => some "DELETE"
  | some .insert => some "INSERT"
  | some .select => some "SELECT"
  | _ => none

/-- The normalized literal returned on the single-statement path:
rows and fields defaulted to empty, rowCount set to affectedRows or
null, command as inferred. -/
def normalizeSingle (results : ResultLike) (command : Option String) : ResultLike :=
  { rows := some (results.rows.getD [])
    fields := some (results.fields.getD [])
    affectedRows := none
    rowCount := some results.affectedRows
    command := command }

/-- The normalized literal returned on the multi-statement path, built
from the optional first element of the exec result list; the literal
carries no command property. -/
def normalizeMulti (res : Option ResultLike) : ResultLike :=
  { rows := some ((res.bind ResultLike.rows).getD [])
    fields := some ((res.bind ResultLike.fields).getD [])
    affectedRows := none
    rowCount := some (res.bind ResultLike.affectedRows)
    command := none }

/-- Engine instance identity. -/
abbrev Engine := Nat

/-- Collaborator outcomes for one query call: what parseQuerySync,
connection.query and connection.exec would produce if called. -/
structure Env where
  parseResult : Except Err ParsedQuery
  queryResult : Except Err ResultLike
  execResult : Except Err (List ResultLike)
deriving Repr

/-- The second positional argument of query: a parameter list, a
callback function (identified by a tag), or absent. -/
inductive ParamsOrCb where
  | params (ps : List JSVal)
  | cb (f : Nat)
  | undef
deriving DecidableEq, Repr

/-- One callback invocation performed by query: which function was
called, its error argument and its results argument. -/
structure CbCall where
  cbId : Nat
  err : Option Err
  res : Option ResultLike
deriving DecidableEq, Repr

/-- Everything observable about one query call: the promise outcome,
the callback invocations, and the collaborator calls made. -/
structure QueryOutcome where
  promise : Except Err ResultLike
  cbCalls : List CbCall
  parseCalls : Nat
  engineQueryCalls : List (String × Option (List JSVal))
  engineExecCalls : List String
deriving Repr

/-- The query method of the pool class, translated line by line.  The
guard throws before anything else when no connection exists; the
second argument is resolved into queryCb and queryParams; the parser
runs outside any try block; statement lists longer than one are routed
through exec (note the source invokes cb, the third positional
argument, on this path, not the resolved queryCb), and everything else
through connection.query with the resolved parameters. -/
def query (conn : Option Engine) (env : Env) (sqlQuery : String)
    (paramsOrCb : ParamsOrCb) (cb : Option Nat) : QueryOutcome :=
  match conn with
  | none =>
    { promise := .error notInitializedError, cbCalls := [], parseCalls := 0
      engineQueryCalls := [], engineExecCalls := [] }
  | some _ =>
    let queryCb : Option Nat :=
      match paramsOrCb with
      | .cb f => some f
      | _ => cb
    let queryParams : Option (List JSVal) :=
      match paramsOrCb with
      | .params ps => some ps
      | _ => none
    match env.parseResult with
    | .error e =>
      { promise := .error e, cbCalls := [], parseCalls := 1
        engineQueryCalls := [], engineExecCalls := [] }
    | .ok parsed =>
      if parsed.stmts.length > 1 then
        match env.execResult with
        | .ok results =>
          let res := results.head?
          { promise := .ok (normalizeMulti res)
            cbCalls := (cb.map fun f => { cbId := f, err := none, res := res }).toList
            parseCalls := 1, engineQueryCalls := [], engineExecCalls := [sqlQuery] }
        | .error e =>
          { promise := .error e
            cbCalls := (cb.map fun f => { cbId := f, err := some e, res := none }).toList
            parseCalls := 1, engineQueryCalls := [], engineExecCalls := [sqlQuery] }
      else
        match env.queryResult with
        | .ok results =>
          { promise := .ok (normalizeSingle results (inferCommand parsed))
            cbCalls := (queryCb.map fun f => { cbId := f, err := none, res := some results }).toList
            parseCalls := 1, engineQueryCalls := [(sqlQuery, queryParams)]
            engineExecCalls := [] }
        | .error e =>
          { promise := .error e
            cbCalls := (queryCb.map fun f => { cbId := f, err := some e, res := none }).toList
            parseCalls := 1, engineQueryCalls := [(sqlQuery, queryParams)]
            engineExecCalls := [] }

/-- Engine type identifiers. -/
abbrev TypeId := Nat

/-- The boolean type identifier (types.BOOL, Postgres oid 16). -/
def BOOL : TypeId := 16

/-- A per-type serializer registry: a JavaScript object mapping type
identifiers to serializer functions; none means no entry for the key. -/
abbrev SerializerMap := TypeId → Option (JSVal → JSVal)

/-- The serializers object handed to engine creation: the object
literal holding the built-in boolean serializer under the boolean key,
spread with the caller-supplied serializers, whose entries win key by
key. -/
def mergedSerializers (caller : SerializerMap) : SerializerMap :=
  fun k =>
    match caller k with
    | some f => some f
    | none => if k = BOOL then some boolSerializer else none

/-- One callback invocation performed by connect: the error argument,
whether the client argument is the handle itself (as opposed to null)
and whether the done argument is the noop release hook. -/
structure ConnectCbCall where
  err : Option Err
  clientIsSelf : Bool
  doneIsNoop : Bool

/-- Everything observable about one connect call: the new connection
state, the callback invocations, and the serializer registries passed
to the engine-creation calls made. -/
structure ConnectOut where
  conn : Option Engine
  cbCalls : List ConnectCbCall
  createCalls : List SerializerMap

/-- The connect method: an existing connection short-circuits to a
success callback with no creation call; otherwise the engine is
created with the merged serializer registry, stored on success, and
the failure leaves the connection unset. -/
def connect (conn : Option Engine) (caller : SerializerMap)
    (createOutcome : Except Err Engine) : ConnectOut :=
  match conn with
  | some e =>
    { conn := some e, cbCalls := [⟨none, true, true⟩], createCalls := [] }
  | none =>
    match createOutcome with
    | .ok eng =>
      { conn := some eng, cbCalls := [⟨none, true, true⟩]
        createCalls := [mergedSerializers caller] }
    | .error e =>
      { conn := none, cbCalls := [⟨some e, false, true⟩]
        createCalls := [mergedSerializers caller] }

/-- Everything observable about one end call: the new connection
state, the callback invocations (the element is the error argument;
none models callback null) and the number of close calls made. -/
structure EndOut where
  conn : Option Engine
  cbCalls : List (Option Err)
  closeCalls : Nat
deriving DecidableEq, Repr

/-- The end method of the pool class.  The optional chain
connection?.close().then(...).catch(...) short-circuits entirely when
the connection is null: no close call and no callback invocation.
Otherwise close success clears the connection and invokes the callback
with null, and close failure leaves the connection as-is and invokes
the callback with the error. -/
def endPool (conn : Option Engine) (closeOutcome : Except Err Unit) : EndOut :=
  match conn with
  | none => { conn := none, cbCalls := [], closeCalls := 0 }
  | some e =>
    match closeOutcome with
    | .ok _ => { conn := none, cbCalls := [none], closeCalls := 1 }
    | .error err => { conn := some e, cbCalls := [some err], closeCalls := 1 }

/-- Folding a list of connect calls over a handle, threading the
connection state and counting engine-creation calls and successful
engine creations. -/
def runConnects (conn : Option Engine) (caller : SerializerMap)
    (outcomes : List (Except Err Engine)) : Option Engine × Nat × Nat :=
  match outcomes with
  | [] => (conn, 0, 0)
  | o :: rest =>
    let out := connect conn caller o
    let tail := runConnects out.conn caller rest
    (tail.1,
     out.createCalls.length + tail.2.1,
     (if out.createCalls.length > 0 ∧ out.conn.isSome then 1 else 0) + tail.2.2)

end PgliteDriver

namespace PgliteDriver

/-- C4: the boolean serializer maps the string true, boolean true and
the number 1 to the TRUE literal, the string false, boolean false and
the number 0 to the FALSE literal, and returns every other value
unmodified, null included. -/
theorem boolSerializer_spec :
    boolSerializer (.str "true") = .str "TRUE" ∧
    boolSerializer (.bool true) = .str "TRUE" ∧
    boolSerializer (.str "false") = .str "FALSE" ∧
    boolSerializer (.bool false) = .str "FALSE" ∧
    boolSerializer (.num 1) = .str "TRUE" ∧
    boolSerializer (.num 0) = .str "FALSE" ∧
    ∀ v : JSVal, v ≠ .str "true" → v ≠ .bool true → v ≠ .str "false" →
      v ≠ .bool false → v ≠ .num 1 → v ≠ .num 0 → boolSerializer v = v := by
  refine ⟨rfl, rfl, rfl, rfl, rfl, rfl, ?_⟩
  intro v h1 h2 h3 h4 h5 h6
  unfold boolSerializer
  simp [h1, h2, h3, h4, h5, h6]

/-- Witness for C4: null is not one of the six trigger values and is
returned unmodified. -/
theorem boolSerializer_spec_witness : boolSerializer .null = .null :=
  boolSerializer_spec.2.2.2.2.2.2 .null (by decide) (by decide) (by decide)
    (by decide) (by decide) (by decide)

/-- Counterexample for C2: on an unconnected handle with a supplied
callback, the promise rejects with the initialization-order error but
the callback is never invoked, contrary to the claim that the error is
delivered through both channels. -/
theorem query_unconnected_cex :
    (query none ⟨.ok ⟨[.select]⟩, .ok {}, .ok []⟩ "SELECT 1" (.cb 0) none).promise =
      .error notInitializedError ∧
    (query none ⟨.ok ⟨[.select]⟩, .ok {}, .ok []⟩ "SELECT 1" (.cb 0) none).cbCalls = [] :=
  ⟨rfl, rfl⟩

/-- C2 amended: query on a handle with no established engine instance
fails immediately with the locally raised initialization-order error,
delivered only as the rejection of the deferred result; the supplied
callback is not invoked, and no engine query or exec call and no parse
call is attempted. -/
theorem query_unconnected_rejects_only (env : Env) (sql : String)
    (pc : ParamsOrCb) (cb : Option Nat) :
    query none env sql pc cb =
      { promise := .error notInitializedError, cbCalls := [], parseCalls := 0
        engineQueryCalls := [], engineExecCalls := [] } := rfl

/-- Counterexample for C3: end on a never-connected handle performs no
close call and never invokes the callback, contrary to the claim that
callback null is still invoked. -/
theorem end_never_connected_cex :
    (endPool none (.ok ())).cbCalls = [] ∧ (endPool none (.ok ())).closeCalls = 0 :=
  ⟨rfl, rfl⟩

/-- C3 amended: end on a handle with no engine instance is a no-op
that raises no error, makes no close call and leaves the handle
unchanged, but it does not invoke the callback at all (the optional
chain on the null connection short-circuits past it). -/
theorem end_never_connected_noop (o : Except Err Unit) :
    endPool none o = { conn := none, cbCalls := [], closeCalls := 0 } := rfl

/-- C10: a successful end clears the stored engine instance, and a
subsequent connect on the same handle does not fail and does not reuse
the closed instance: it makes exactly one creation call and stores the
freshly created instance, signalling success to its callback. -/
theorem end_then_connect_creates_fresh (e0 eng : Engine) (caller : SerializerMap) :
    (endPool (some e0) (.ok ())).conn = none ∧
    (endPool (some e0) (.ok ())).cbCalls = [none] ∧
    (connect (endPool (some e0) (.ok ())).conn caller (.ok eng)).conn = some eng ∧
    (connect (endPool (some e0) (.ok ())).conn caller (.ok eng)).createCalls.length = 1 ∧
    (connect (endPool (some e0) (.ok ())).conn caller (.ok eng)).cbCalls =
      [⟨none, true, true⟩] :=
  ⟨rfl, rfl, rfl, rfl, rfl⟩

/-- Helper: a sequence of connect calls on an already-connected handle
makes no creation call and leaves the instance untouched. -/
theorem runConnects_connected (e : Engine) (caller : SerializerMap)
    (outcomes : List (Except Err Engine)) :
    runConnects (some e) caller outcomes = (some e, 0, 0) := by
  induction outcomes with
  | nil => rfl
  | cons o rest ih => simp [runConnects, connect, ih]

/-- Helper: starting unconnected, at most one connect in a sequence
succeeds in creating an engine instance. -/
theorem runConnects_successes_le_one (caller : SerializerMap)
    (outcomes : List (Except Err Engine)) :
    (runConnects none caller outcomes).2.2 ≤ 1 := by
  induction outcomes with
  | nil => simp [runConnects]
  | cons o rest ih =>
    cases o with
    | ok eng => simp [runConnects, connect, runConnects_connected]
    | error err => simpa [runConnects, connect] using ih

/-- C7: connect on an already-connected handle invokes the callback
with null, the handle itself and the noop release hook, making no
creation call; consequently over any sequence of connect calls without
an intervening end, at most one call successfully creates an engine
instance, and when every attempted creation succeeds, at most one
creation call is made at all. -/
theorem connect_idempotent_single_creation (e : Engine) (caller : SerializerMap)
    (o : Except Err Engine) (outcomes : List (Except Err Engine)) :
    connect (some e) caller o =
      { conn := some e, cbCalls := [⟨none, true, true⟩], createCalls := [] } ∧
    (runConnects none caller outcomes).2.2 ≤ 1 ∧
    ((∀ x ∈ outcomes, ∃ a, x = Except.ok a) →
      (runConnects none caller outcomes).2.1 ≤ 1) := by
  refine ⟨rfl, runConnects_successes_le_one caller outcomes, ?_⟩
  intro h
  cases outcomes with
  | nil => simp [runConnects]
  | cons o2 rest =>
    obtain ⟨a, rfl⟩ := h o2 (List.mem_cons_self _ _)
    simp [runConnects, connect, runConnects_connected]

/-- Witness for C7: two successful connect calls in a row make exactly
one creation call. -/
theorem connect_idempotent_single_creation_witness :
    (runConnects none (fun _ => none) [Except.ok 5, Except.ok 7]).2.1 ≤ 1 :=
  (connect_idempotent_single_creation 0 (fun _ => none) (.ok 5)
      [Except.ok 5, Except.ok 7]).2.2
    (by intro x hx; fin_cases hx <;> exact ⟨_, rfl⟩)

/-- C5: on a successfully parsed single-statement query that the
engine executes, the command field of the promised result is
determined by the statement node kind: update yields UPDATE, delete
yields DELETE, insert yields INSERT, select yields SELECT, and any
other kind leaves command unset. -/
theorem query_single_statement_command (e : Engine) (env : Env) (sql : String)
    (pc : ParamsOrCb) (cb : Option Nat) (k : StmtKind) (r : ResultLike)
    (hparse : env.parseResult = .ok ⟨[k]⟩) (hq : env.queryResult = .ok r) :
    (query (some e) env sql pc cb).promise.map ResultLike.command =
      .ok (match k with
        | .update => some "UPDATE"
        | .delete => some "DELETE"
        | .insert => some "INSERT"
        | .select => some "SELECT"
        | .other => none) := by
  cases k <;>
    simp [query, hparse, hq, normalizeSingle, inferCommand, Except.map]

/-- Witness for C5: a single select statement yields command SELECT. -/
theorem query_single_statement_command_witness :
    (query (some 0) ⟨.ok ⟨[.select]⟩, .ok {}, .ok []⟩ "s" .undef none).promise.map
      ResultLike.command = .ok (some "SELECT") :=
  query_single_statement_command 0 _ "s" .undef none .select {} rfl rfl

/-- C6: on SQL that parses to more than one top-level statement, query
routes execution through the exec path: the whole outcome is identical
with and without supplied parameters (they are silently ignored), exec
is called once with the full SQL text while the parameterized engine
query API is never called, and on success the promise resolves to the
normalization of only the first result object, with command unset;
replacing the results of the later statements does not change the
outcome. -/
theorem query_multi_statement_exec (e : Engine) (env : Env) (sql : String)
    (ps : List JSVal) (cb : Option Nat) (parsed : ParsedQuery)
    (hparse : env.parseResult = .ok parsed) (hlen : parsed.stmts.length > 1) :
    query (some e) env sql (.params ps) cb = query (some e) env sql .undef cb ∧
    (query (some e) env sql (.params ps) cb).engineExecCalls = [sql] ∧
    (query (some e) env sql (.params ps) cb).engineQueryCalls = [] ∧
    (∀ results, env.execResult = .ok results →
      (query (some e) env sql (.params ps) cb).promise =
        .ok (normalizeMulti results.head?) ∧
      (query (some e) env sql (.params ps) cb).promise.map ResultLike.command =
        .ok none) ∧
    (∀ r rest rest2,
      query (some e) { env with execResult := .ok (r :: rest) } sql (.params ps) cb =
        query (some e) { env with execResult := .ok (r :: rest2) } sql (.params ps) cb) := by
  refine ⟨?_, ?_, ?_, ?_, ?_⟩
  · cases henv : env.execResult <;>
      simp [query, hparse, hlen, henv]
  · cases henv : env.execResult <;>
      simp [query, hparse, hlen, henv]
  · cases henv : env.execResult <;>
      simp [query, hparse, hlen, henv]
  · intro results henv
    simp [query, hparse, hlen, henv, normalizeMulti, Except.map]
  · intro r rest rest2
    simp [query, hparse, hlen]

/-- Witness for C6: a two-statement script with parameters resolves
from the first result object with command unset. -/
theorem query_multi_statement_exec_witness :
    (query (some 0) ⟨.ok ⟨[.insert, .insert]⟩, .ok {}, .ok [{ affectedRows := some 1 }, {}]⟩
        "a; b" (.params [.num 3]) none).promise =
      .ok (normalizeMulti (some { affectedRows := some 1 })) :=
  ((query_multi_statement_exec 0 _ "a; b" [.num 3] none ⟨[.insert, .insert]⟩ rfl
      (by decide)).2.2.2.1 [{ affectedRows := some 1 }, {}] rfl).1

/-- C8: in every result normalized by query, rowCount carries the
engine's affected-row figure exactly when one is present (zero
preserved as zero) and is null exactly when the engine reports none,
and rows and fields are never undefined, on both the single-statement
and the multi-statement path. -/
theorem query_result_normalization (e : Engine) (env : Env) (sql : String)
    (pc : ParamsOrCb) (cb : Option Nat) (parsed : ParsedQuery)
    (hparse : env.parseResult = .ok parsed) :
    (∀ r, ¬ parsed.stmts.length > 1 → env.queryResult = .ok r →
      ∃ q, (query (some e) env sql pc cb).promise = .ok q ∧
        (∀ n, r.affectedRows = some n → q.rowCount = some (some n)) ∧
        (r.affectedRows = none → q.rowCount = some none) ∧
        q.rows ≠ none ∧ q.fields ≠ none) ∧
    (∀ results, parsed.stmts.length > 1 → env.execResult = .ok results →
      ∃ q, (query (some e) env sql pc cb).promise = .ok q ∧
        (∀ res n, results.head? = some res → res.affectedRows = some n →
          q.rowCount = some (some n)) ∧
        (results.head?.bind ResultLike.affectedRows = none → q.rowCount = some none) ∧
        q.rows ≠ none ∧ q.fields ≠ none) := by
  constructor
  · intro r hlen hq
    refine ⟨normalizeSingle r (inferCommand parsed), ?_, ?_, ?_, ?_, ?_⟩
    · simp [query, hparse, hlen, hq]
    · intro n hn; simp [normalizeSingle, hn]
    · intro hn; simp [normalizeSingle, hn]
    · simp [normalizeSingle]
    · simp [normalizeSingle]
  · intro results hlen henv
    refine ⟨normalizeMulti results.head?, ?_, ?_, ?_, ?_, ?_⟩
    · simp [query, hparse, hlen, henv]
    · intro res n hres hn; simp [normalizeMulti, hres, hn]
    · intro hn; simp [normalizeMulti, hn]
    · simp [normalizeMulti]
    · simp [normalizeMulti]

/-- Witness for C8: an engine result reporting zero affected rows and
no row or field lists normalizes to rowCount zero with empty rows and
fields. -/
theorem query_result_normalization_witness :
    ∃ q, (query (some 0) ⟨.ok ⟨[.update]⟩, .ok { affectedRows := some 0 }, .ok []⟩
        "u" .undef none).promise = .ok q ∧
      (∀ n, ({ affectedRows := some 0 } : ResultLike).affectedRows = some n →
        q.rowCount = some (some n)) ∧
      (({ affectedRows := some 0 } : ResultLike).affectedRows = none →
        q.rowCount = some none) ∧
      q.rows ≠ none ∧ q.fields ≠ none :=
  (query_result_normalization 0 _ "u" .undef none ⟨[.update]⟩ rfl).1
    { affectedRows := some 0 } (by decide) rfl

/-- C9: the serializer registry handed to engine creation is the
key-wise merge of the built-in boolean serializer with the caller map:
a caller entry for the boolean type id replaces the built-in one,
caller entries for any key are kept, the built-in boolean serializer
is retained when the caller has no boolean entry, and keys supplied by
neither side stay empty. -/
theorem connect_serializers_merge (caller : SerializerMap) (o : Except Err Engine)
    (k : TypeId) :
    (connect none caller o).createCalls = [mergedSerializers caller] ∧
    (∀ f, caller BOOL = some f → mergedSerializers caller BOOL = some f) ∧
    (caller BOOL = none → mergedSerializers caller BOOL = some boolSerializer) ∧
    (∀ g, caller k = some g → mergedSerializers caller k = some g) ∧
    (k ≠ BOOL → caller k = none → mergedSerializers caller k = none) := by
  refine ⟨?_, ?_, ?_, ?_, ?_⟩
  · cases o <;> rfl
  · intro f hf; simp [mergedSerializers, hf]
  · intro hf; simp [mergedSerializers, hf]
  · intro g hg; simp [mergedSerializers, hg]
  · intro hk hnone; simp [mergedSerializers, hnone, hk]

/-- Witness for C9: with no caller overrides the boolean key holds the
built-in serializer. -/
theorem connect_serializers_merge_witness :
    mergedSerializers (fun _ => none) BOOL = some boolSerializer :=
  (connect_serializers_merge (fun _ => none) (.ok 0) 0).2.2.1 rfl

/-- Counterexample for C1: two concrete runs refute the claim.  On a
single-statement success the callback receives the raw engine result
object, which is not the normalized value the promise resolves to (its
rowCount and command properties are missing).  On a multi-statement
failure with the callback passed as the second positional argument,
the promise rejects but the callback is never invoked at all. -/
theorem query_callback_channels_cex :
    (query (some 0) ⟨.ok ⟨[.select]⟩, .ok {}, .ok []⟩ "s" (.cb 0) none).cbCalls =
      [⟨0, none, some {}⟩] ∧
    (query (some 0) ⟨.ok ⟨[.select]⟩, .ok {}, .ok []⟩ "s" (.cb 0) none).promise =
      .ok { rows := some [], fields := some [], rowCount := some none
            command := some "SELECT" } ∧
    ({} : ResultLike) ≠
      { rows := some [], fields := some [], rowCount := some none
        command := some "SELECT" } ∧
    (query (some 0) ⟨.ok ⟨[.select, .select]⟩, .ok {}, .error (.engine 0)⟩ "s"
        (.cb 0) none).promise = .error (.engine 0) ∧
    (query (some 0) ⟨.ok ⟨[.select, .select]⟩, .ok {}, .error (.engine 0)⟩ "s"
        (.cb 0) none).cbCalls = [] :=
  ⟨rfl, rfl, by decide, rfl, rfl⟩

/-- C1 amended: when a callback is supplied, the channels behave as
follows.  On the single-statement path the resolved callback (a
second-argument function, else the third argument) and the promise
observe the same outcome, but on success the callback receives the raw
engine result object while the promise resolves to the normalized
rows-fields-rowCount-command shape, and on failure both carry the very
same error.  On the multi-statement path only a callback supplied as
the third positional argument is invoked, with the raw first-statement
result object on success or the same error as the rejection on
failure; a callback supplied as the second positional argument is
never invoked there.  A parse failure rejects the promise without
invoking any callback. -/
theorem query_callback_channels (e : Engine) (env : Env) (sql : String)
    (f : Nat) (ps : List JSVal) (parsed : ParsedQuery) :
    (∀ perr, env.parseResult = .error perr →
      ∀ (pc : ParamsOrCb) (cb3 : Option Nat),
        (query (some e) env sql pc cb3).cbCalls = [] ∧
        (query (some e) env sql pc cb3).promise = .error perr) ∧
    (env.parseResult = .ok parsed → ¬ parsed.stmts.length > 1 →
      (∀ r, env.queryResult = .ok r →
        (query (some e) env sql (.cb f) none).cbCalls = [⟨f, none, some r⟩] ∧
        (query (some e) env sql (.params ps) (some f)).cbCalls = [⟨f, none, some r⟩] ∧
        (query (some e) env sql .undef (some f)).cbCalls = [⟨f, none, some r⟩] ∧
        (query (some e) env sql (.cb f) none).promise =
          .ok (normalizeSingle r (inferCommand parsed))) ∧
      (∀ err, env.queryResult = .error err →
        (query (some e) env sql (.cb f) none).cbCalls = [⟨f, some err, none⟩] ∧
        (query (some e) env sql (.params ps) (some f)).cbCalls = [⟨f, some err, none⟩] ∧
        (query (some e) env sql .undef (some f)).cbCalls = [⟨f, some err, none⟩] ∧
        (query (some e) env sql (.cb f) none).promise = .error err)) ∧
    (env.parseResult = .ok parsed → parsed.stmts.length > 1 →
      (∀ results, env.execResult = .ok results →
        (query (some e) env sql (.params ps) (some f)).cbCalls =
          [⟨f, none, results.head?⟩] ∧
        (query (some e) env sql .undef (some f)).cbCalls =
          [⟨f, none, results.head?⟩] ∧
        (query (some e) env sql (.cb f) none).cbCalls = [] ∧
        (query (some e) env sql (.cb f) none).promise =
          .ok (normalizeMulti results.head?)) ∧
      (∀ err, env.execResult = .error err →
        (query (some e) env sql (.params ps) (some f)).cbCalls = [⟨f, some err, none⟩] ∧
        (query (some e) env sql .undef (some f)).cbCalls = [⟨f, some err, none⟩] ∧
        (query (some e) env sql (.cb f) none).cbCalls = [] ∧
        (query (some e) env sql (.cb f) none).promise = .error err)) := by
  refine ⟨?_, ?_, ?_⟩
  · intro perr hperr pc cb3
    exact ⟨by simp [query, hperr], by simp [query, hperr]⟩
  · intro hparse hlen
    constructor
    · intro r hq
      refine ⟨?_, ?_, ?_, ?_⟩ <;> simp [query, hparse, hlen, hq]
    · intro err herr
      refine ⟨?_, ?_, ?_, ?_⟩ <;> simp [query, hparse, hlen, herr]
  · intro hparse hlen
    constructor
    · intro results henv
      refine ⟨?_, ?_, ?_, ?_⟩ <;> simp [query, hparse, hlen, henv]
    · intro err herr
      refine ⟨?_, ?_, ?_, ?_⟩ <;> simp [query, hparse, hlen, herr]

/-- Witness for C1 amended: on a two-statement script a callback in
second position is not invoked even though the script executes. -/
theorem query_callback_channels_witness :
    (query (some 0) ⟨.ok ⟨[.select, .select]⟩, .ok {}, .ok []⟩ "s" (.cb 0) none).cbCalls =
      [] :=
  (((query_callback_channels 0 ⟨.ok ⟨[.select, .select]⟩, .ok {}, .ok []⟩ "s" 0 []
      ⟨[.select, .select]⟩).2.2 rfl (by decide)).1 [] rfl).2.2.1

end PgliteDriver
